import Mathlib

/-!
Verification development for the model-deployment control plane
(src/backend/deployment_service.py, src/backend/api_server.py,
src/backend/config.py, src/api_server/api_server.py).

The Python code is shallowly embedded: every stateful component becomes a
pure Lean function from an explicit state (plus an environment describing
the outcomes of the effectful sub-operations such as the artifact download
or a port probe) to a new state together with the observable trace of the
call.  String punctuation of log/progress messages is transcribed without
quote characters; the message text is never inspected by the code, only
stored.
-/

namespace ModelDeploy

/-! ## Small association-map helpers (Python dict on string keys) -/

/-- Lookup in an association list, mirroring a Python dict read
(first matching key wins; dicts keep keys unique). -/
def getKey {α : Type} : List (String × α) → String → Option α
  | [], _ => none
  | (k, v) :: rest, k2 => if k = k2 then some v else getKey rest k2

/-- Overwrite-or-insert, mirroring a Python dict assignment. -/
def setKey {α : Type} : List (String × α) → String → α → List (String × α)
  | [], k2, v2 => [(k2, v2)]
  | (k, v) :: rest, k2, v2 =>
      if k = k2 then (k2, v2) :: rest else (k, v) :: setKey rest k2 v2

/-- Key removal, mirroring a Python del statement. -/
def delKey {α : Type} : List (String × α) → String → List (String × α)
  | [], _ => []
  | (k, v) :: rest, k2 => if k = k2 then rest else (k, v) :: delKey rest k2

/-! ## Port allocator
Source: Config.get_available_port in src/backend/config.py and
find_available_port in src/api_server/api_server.py.  A port probe result
is abstracted as a predicate free : Nat → Bool (true when the probe in the
respective variant reports the port as usable). -/

/-- Scan fuel-many consecutive ports starting at p, returning the first
free one; the two source functions share this loop shape. -/
def scanPorts (free : Nat → Bool) (err : String) : Nat → Nat → Except String Nat
  | _, 0 => Except.error err
  | p, n + 1 => if free p then Except.ok p else scanPorts free err (p + 1) n

/-- Config.get_available_port: iterates range(PORT_START, PORT_END) and
returns the first port whose connect probe reports nothing listening;
raises RuntimeError when the range is exhausted. -/
def get_available_port (free : Nat → Bool) (startP endP : Nat) : Except String Nat :=
  scanPorts free "No available ports for model serving" startP (endP - startP)

/-- find_available_port: iterates range(start_port, start_port + max_attempts)
and returns the first bindable port; raises RuntimeError otherwise. -/
def find_available_port (free : Nat → Bool) (start_port max_attempts : Nat) :
    Except String Nat :=
  scanPorts free "No available ports found" start_port max_attempts

/-! ## Progress tracker
Source: class DeploymentProgress in src/backend/deployment_service.py.
The wall-clock start_time and the elapsed_time of to_dict are not modeled
(no claim depends on real time); every other field is carried verbatim. -/

structure DeploymentProgress where
  deployment_id : String
  status : String
  progress : Int
  message : String
  current_step : String
  total_steps : Nat
  completed_steps : Nat
  errors : List String
deriving Repr, DecidableEq

/-- DeploymentProgress.__init__ . -/
def DeploymentProgress.init (id : String) : DeploymentProgress :=
  { deployment_id := id
    status := "initializing"
    progress := 0
    message := "Starting deployment..."
    current_step := ""
    total_steps := 6
    completed_steps := 0
    errors := [] }

/-- DeploymentProgress.update.  The Python body is four independent
guarded assignments on disjoint fields:
if status / if progress is not None / if message / if current_step,
with the current_step branch also incrementing completed_steps.
The string guards use Python truthiness, so a supplied empty string
behaves like an omitted argument; the percent guard is an explicit
None test, so percent 0 is applied.  The four guards touch disjoint
fields, so the record-comprehension form below is extensionally the
same function as the sequential Python statements. -/
def DeploymentProgress.update (p : DeploymentProgress) (status : Option String)
    (progressVal : Option Int) (message : Option String)
    (current_step : Option String) : DeploymentProgress :=
  { p with
    status := match status with
      | some s => if s == "" then p.status else s
      | none => p.status
    progress := match progressVal with
      | some n => n
      | none => p.progress
    message := match message with
      | some s => if s == "" then p.message else s
      | none => p.message
    current_step := match current_step with
      | some s => if s == "" then p.current_step else s
      | none => p.current_step
    completed_steps := match current_step with
      | some s => if s == "" then p.completed_steps else p.completed_steps + 1
      | none => p.completed_steps }

/-- One call to _update_progress: the keyword arguments passed to
DeploymentProgress.update (an omitted keyword is none). -/
structure UpdateEvent where
  status : Option String
  progress : Option Int
  message : Option String
  current_step : Option String
deriving Repr, DecidableEq

def applyEvent (p : DeploymentProgress) (e : UpdateEvent) : DeploymentProgress :=
  p.update e.status e.progress e.message e.current_step

def applyEvents (p : DeploymentProgress) (evs : List UpdateEvent) : DeploymentProgress :=
  evs.foldl applyEvent p

/-- A full six-argument phase update of deploy_model. -/
def phaseEvent (st : String) (pc : Int) (msg step : String) : UpdateEvent :=
  { status := some st, progress := some pc, message := some msg,
    current_step := some step }

/-- An intermediate percent-plus-message update of _download_model. -/
def progressEvent (pc : Int) (msg : String) : UpdateEvent :=
  { status := none, progress := some pc, message := some msg,
    current_step := none }

/-- All percent values written over a run, in order. -/
def percentsOf (evs : List UpdateEvent) : List Int :=
  evs.filterMap fun e => e.progress

/-- The (status, percent) pairs of the updates that name a phase
(a truthy current_step), in order: the six phase checkpoints. -/
def phaseUpdates (evs : List UpdateEvent) : List (Option String × Option Int) :=
  evs.filterMap fun e =>
    match e.current_step with
    | some s => if s == "" then none else some (e.status, e.progress)
    | none => none

/-! ## Deployment pipeline
Source: ModelDeploymentService.deploy_model, _download_model,
_create_pipeline in src/backend/deployment_service.py.  The effectful
sub-operations are abstracted into a DeployEnv: the artifact
download either succeeds or raises with a message (after the wrapping
into RuntimeError done inside _download_model), and the port allocation
either yields a port or raises.  _create_pipeline catches every
exception internally and falls back to a basic wrapper, so it has no
failure outcome.  The per-deployment model/tokenizer/pipeline objects
are opaque and not carried. -/

/-- config.get of the deploy request: model_id, model_type (defaulted to
nlp by the callers we embed), deployment_name.  none models an absent
dict key. -/
structure DeployConfig where
  model_id : Option String
  model_type : String
  deployment_name : Option String
deriving Repr, DecidableEq

deriving instance DecidableEq for Except

/-- Outcomes of the effectful sub-operations of one deploy call. -/
structure DeployEnv where
  downloadError : Option String
  portResult : Except String Nat
deriving Repr, DecidableEq

/-- The deployment_info record stored into deployed_models (its opaque
model/tokenizer/pipeline/config members elided). -/
structure DeploymentInfo where
  deployment_id : String
  model_id : String
  model_type : String
  port : Nat
  status : String
deriving Repr, DecidableEq

/-- The two registries of ModelDeploymentService. -/
structure Service where
  deployments : List (String × DeploymentProgress)
  deployed_models : List (String × DeploymentInfo)
deriving Repr, DecidableEq

/-- Python truthiness of an optional string: None and the empty string
are falsy (the model_id guard is written as: if not model_id). -/
def optStrFalsy : Option String → Bool
  | none => true
  | some s => s == ""

/-- deployment_id = deployment_config.get of deployment_name, defaulted
to model_ followed by int(time.time()). -/
def deployId (cfg : DeployConfig) (now : Nat) : String :=
  cfg.deployment_name.getD ("model_" ++ toString now)

def endpointUrl (port : Nat) : String :=
  "http://0.0.0.0:" ++ toString port ++ "/predict"

def validationEvent : UpdateEvent :=
  phaseEvent "validating" 10 "Validating deployment configuration..."
    "Configuration validation"

def downloadStartEvent (model_id : String) : UpdateEvent :=
  phaseEvent "downloading" 20
    ("Downloading model " ++ model_id ++ " from HuggingFace Hub...")
    "Model download"

/-- The loop percents of _download_model: range(20, 55, 5) enumerated. -/
def downloadTickPercents : List Int := [20, 25, 30, 35, 40, 45, 50]

def downloadTickEvents : List UpdateEvent :=
  downloadTickPercents.map fun i =>
    progressEvent i ("Downloading model components... (" ++ toString i ++ "%)")

def downloadDoneEvent : UpdateEvent :=
  progressEvent 55 "Model downloaded successfully!"

def loadingEvent : UpdateEvent :=
  phaseEvent "loading" 60 "Loading model into memory..." "Model loading"

def pipelineEvent : UpdateEvent :=
  phaseEvent "creating_pipeline" 75 "Creating inference pipeline..."
    "Pipeline creation"

def serverEvent : UpdateEvent :=
  phaseEvent "starting_server" 85 "Starting model inference server..."
    "Server startup"

def completedEvent (port : Nat) : UpdateEvent :=
  phaseEvent "completed" 100
    ("Model deployed successfully! Available at " ++ endpointUrl port)
    "Deployment complete"

/-- Result of one deploy_model call: the service registries after the
call, the ordered trace of tracker updates, the tracker object at the
end of the call (the same object stored in Service.deployments), and
the returned-or-raised outcome. -/
structure DeployResult where
  svc : Service
  events : List UpdateEvent
  final : DeploymentProgress
  outcome : Except String DeploymentInfo

/-- The except-branch of deploy_model: append str(e) to the tracker
errors, issue the failed update re-passing the current percent, and
re-raise the same error. -/
def failWith (svc : Service) (id : String) (evs : List UpdateEvent)
    (p : DeploymentProgress) (err : String) : DeployResult :=
  let pErr := { p with errors := p.errors ++ [err] }
  let eF : UpdateEvent :=
    { status := some "failed", progress := some pErr.progress,
      message := some ("Deployment failed: " ++ err),
      current_step := some "Error" }
  let pF := applyEvent pErr eF
  { svc := { svc with deployments := setKey svc.deployments id pF }
    events := evs ++ [eF]
    final := pF
    outcome := Except.error err }

/-- ModelDeploymentService.deploy_model.  Control flow transcribed from
the source: install a fresh tracker under the (possibly generated) id,
then validating update, model_id guard, downloading update, the
download tick loop, the download itself, loading / creating_pipeline /
starting_server updates, port allocation, registry store, completed
update; any raise falls to failWith. -/
def deploy_model (svc : Service) (cfg : DeployConfig) (env : DeployEnv)
    (now : Nat) : DeployResult :=
  let id := deployId cfg now
  let p0 := DeploymentProgress.init id
  let svc0 : Service := { svc with deployments := setKey svc.deployments id p0 }
  let evs1 := [validationEvent]
  if optStrFalsy cfg.model_id then
    failWith svc0 id evs1 (applyEvents p0 evs1) "model_id is required"
  else
    let model_id := cfg.model_id.getD ""
    let evs2 := evs1 ++ downloadStartEvent model_id :: downloadTickEvents
    match env.downloadError with
    | some derr => failWith svc0 id evs2 (applyEvents p0 evs2) derr
    | none =>
        let evs3 := evs2 ++ [downloadDoneEvent, loadingEvent, pipelineEvent, serverEvent]
        match env.portResult with
        | Except.error perr => failWith svc0 id evs3 (applyEvents p0 evs3) perr
        | Except.ok port =>
            let info : DeploymentInfo :=
              { deployment_id := id
                model_id := model_id
                model_type := cfg.model_type
                port := port
                status := "running" }
            let svc1 : Service :=
              { svc0 with deployed_models := setKey svc0.deployed_models id info }
            let evs4 := evs3 ++ [completedEvent port]
            let p4 := applyEvents p0 evs4
            { svc := { svc1 with deployments := setKey svc1.deployments id p4 }
              events := evs4
              final := p4
              outcome := Except.ok info }

/-! ## WebSocket fan-out
Source: class ConnectionManager in src/backend/api_server.py.  A channel
is identified by a Nat; the outcome of send_json on a channel during one
broadcast is abstracted as sendOk : Nat → Bool (false when the send
raises).  The attempted list records, in order, the channels the loop
tries to send to. -/

structure ConnectionManager where
  active_connections : List (String × List Nat)
deriving Repr

/-- ConnectionManager.disconnect: remove the channel from the list under
the identifier, dropping the identifier when its list becomes empty.
The Python list.remove raises when the element is absent; callers below
only remove channels they found in the list, so the total erase is an
equivalent embedding on those calls. -/
def ConnectionManager.disconnect (mgr : ConnectionManager) (ws : Nat)
    (id : String) : ConnectionManager :=
  match getKey mgr.active_connections id with
  | none => mgr
  | some conns =>
      let conns2 := conns.erase ws
      if conns2.isEmpty then ⟨delKey mgr.active_connections id⟩
      else ⟨setKey mgr.active_connections id conns2⟩

structure BroadcastResult where
  mgr : ConnectionManager
  attempted : List Nat
  dead : List Nat

/-- ConnectionManager.send_progress: try every subscribed channel,
collecting the ones whose send raised, then disconnect the dead ones
after the loop. -/
def ConnectionManager.send_progress (mgr : ConnectionManager) (id : String)
    (sendOk : Nat → Bool) : BroadcastResult :=
  match getKey mgr.active_connections id with
  | none => ⟨mgr, [], []⟩
  | some conns =>
      let dead := conns.filter fun c => ! sendOk c
      let mgr2 := dead.foldl (fun m c => m.disconnect c id) mgr
      ⟨mgr2, conns, dead⟩

/-! ## Process-supervising deployment API
Source: src/api_server/api_server.py.  A child process is identified by
its pid; whether the process is currently alive (Popen.poll() returning
None) is a function of an explicit world state alive : Nat → Bool.
Popen.terminate calls send_signal, which does nothing when the process
has already exited; terminate-wait-kill always leaves the process not
alive, so a stop collapses to: maybe one signal, then not alive. -/

structure DepRecordA where
  deployment_id : String
  model_name : String
  port : Nat
  pid : Nat
  status : String
deriving Repr, DecidableEq

structure GetDepResponse where
  deployment_id : String
  model_name : String
  port : Nat
  pid : Nat
  status : String
deriving Repr, DecidableEq

/-- get_deployment handler (GET /api/deployments/id): 404 when the id
is unknown, otherwise a 200 body whose status field is recomputed from
the process poll. -/
def get_deployment (reg : List (String × DepRecordA)) (alive : Nat → Bool)
    (id : String) : Except Nat GetDepResponse :=
  match getKey reg id with
  | none => Except.error 404
  | some d => Except.ok
      { deployment_id := d.deployment_id, model_name := d.model_name,
        port := d.port, pid := d.pid,
        status := if alive d.pid then "running" else "stopped" }

structure StopResult where
  reg : List (String × DepRecordA)
  alive : Nat → Bool
  signals : List Nat
  response : Except Nat String

/-- stop_deployment handler (DELETE /api/deployments/id): 404 when the
id is unknown; otherwise terminate the process (no signal is sent when
it has already exited), wait up to the grace period and kill on
timeout, after which it is not alive either way; then mark the record
stopped and return success.  The record is not removed from the
registry. -/
def stop_deployment (reg : List (String × DepRecordA)) (alive : Nat → Bool)
    (id : String) : StopResult :=
  match getKey reg id with
  | none => ⟨reg, alive, [], Except.error 404⟩
  | some d =>
      let sigs := if alive d.pid then [d.pid] else []
      let alive2 := fun p => if p = d.pid then false else alive p
      ⟨setKey reg id { d with status := "stopped" }, alive2, sigs,
        Except.ok "Deployment stopped successfully"⟩

/-- get_deployment handler of src/backend/api_server.py: looks the id
up in deployed_models and returns _generate_deployment_summary, whose
status field is the constant running; there is no liveness probe in
this app (deployments own no process). -/
def get_deployment_backend (svc : Service) (id : String) :
    Except Nat DeploymentInfo :=
  match getKey svc.deployed_models id with
  | none => Except.error 404
  | some info => Except.ok { info with status := "running" }

/-- delete_deployment handler of src/backend/api_server.py: 404 when
unknown, otherwise removes the record from both registries. -/
def delete_deployment (svc : Service) (id : String) :
    Service × Except Nat String :=
  match getKey svc.deployed_models id with
  | none => (svc, Except.error 404)
  | some _ =>
      ({ deployments := delKey svc.deployments id,
         deployed_models := delKey svc.deployed_models id },
       Except.ok "removed")

/-! ## WebSocket connect behavior
Source: websocket_endpoint in src/backend/api_server.py.  Only the
deterministic message logic is embedded: what is sent right after
accept, and what a ping receives as reply inside the loop. -/

inductive WsMessage where
  | snapshot (p : DeploymentProgress)
  | statusUnknown
  | heartbeat
deriving Repr, DecidableEq

/-- ModelDeploymentService.get_deployment_status: the tracker dict for
the id, when one exists. -/
def get_deployment_status (svc : Service) (id : String) :
    Option DeploymentProgress :=
  getKey svc.deployments id

/-- Messages the endpoint sends between accept and the receive loop:
the source guards the initial send with: if status — so nothing at all
is sent when no tracker exists. -/
def ws_connect_messages (svc : Service) (id : String) : List WsMessage :=
  match get_deployment_status svc id with
  | some p => [WsMessage.snapshot p]
  | none => []

/-- Reply of the receive loop to a ping: snapshot when a tracker
exists, otherwise the status-unknown message. -/
def ws_ping_reply (svc : Service) (id : String) : WsMessage :=
  match get_deployment_status svc id with
  | some p => WsMessage.snapshot p
  | none => WsMessage.statusUnknown

theorem getKey_setKey_self {α : Type} (m : List (String × α)) (k : String) (v : α) :
    getKey (setKey m k v) k = some v := by
  induction m with
  | nil => simp [getKey, setKey]
  | cons hd tl ih =>
      obtain ⟨k1, v1⟩ := hd
      by_cases h : k1 = k
      · simp [getKey, setKey, h]
      · simp [getKey, setKey, h, ih]

theorem getKey_delKey_self {α : Type} (m : List (String × α)) (k : String)
    (hk : (m.map Prod.fst).Nodup) : getKey (delKey m k) k = none := by
  induction m with
  | nil => simp [getKey, delKey]
  | cons hd tl ih =>
      obtain ⟨k1, v1⟩ := hd
      simp only [List.map_cons, List.nodup_cons] at hk
      by_cases h : k1 = k
      · subst h
        simp only [delKey, if_pos rfl]

        -- k does not occur among the remaining keys, so lookup misses
        clear ih
        induction tl with
        | nil => simp [getKey]
        | cons hd2 tl2 ih2 =>
            obtain ⟨k2, v2⟩ := hd2
            simp only [List.map_cons, List.mem_cons, List.nodup_cons] at hk
            have hne : ¬ k2 = k1 := fun h => hk.1 (Or.inl h.symm)
            simp only [getKey, if_neg hne]
            exact ih2 ⟨fun hmem => hk.1 (Or.inr hmem), hk.2.2⟩
      · simp only [delKey, if_neg h, getKey, if_neg h]
        exact ih hk.2

theorem map_fst_setKey {α : Type} (m : List (String × α)) (k : String) (v : α)
    (hmem : k ∈ m.map Prod.fst) :
    (setKey m k v).map Prod.fst = m.map Prod.fst := by
  induction m with
  | nil => simp at hmem
  | cons hd tl ih =>
      obtain ⟨k1, v1⟩ := hd
      by_cases h : k1 = k
      · simp [setKey, h]
      · simp only [List.map_cons, List.mem_cons] at hmem
        have hmem2 : k ∈ tl.map Prod.fst := by
          rcases hmem with h1 | h1
          · exact absurd h1.symm h
          · exact h1
        simp [setKey, h, ih hmem2]

theorem scanPorts_ok (free : Nat → Bool) (err : String) :
    ∀ n s port, scanPorts free err s n = Except.ok port →
      s ≤ port ∧ port < s + n ∧ free port = true ∧
        ∀ q, s ≤ q → q < port → free q = false := by
  intro n
  induction n with
  | zero => intro s port h; simp [scanPorts] at h
  | succ n ih =>
      intro s port h
      simp only [scanPorts] at h
      by_cases hf : free s
      · rw [if_pos hf] at h
        cases h
        exact ⟨Nat.le_refl _, by omega, hf, fun q h1 h2 => absurd h1 (by omega)⟩
      · rw [if_neg hf] at h
        obtain ⟨h1, h2, h3, h4⟩ := ih (s + 1) port h
        refine ⟨by omega, by omega, h3, fun q hq1 hq2 => ?_⟩
        by_cases hqs : q = s
        · subst hqs; exact Bool.eq_false_iff.mpr hf
        · exact h4 q (by omega) hq2

theorem scanPorts_exhausted (free : Nat → Bool) (err : String) :
    ∀ n s, (∀ q, s ≤ q → q < s + n → free q = false) →
      scanPorts free err s n = Except.error err := by
  intro n
  induction n with
  | zero => intro s _; simp [scanPorts]
  | succ n ih =>
      intro s h
      have hs : free s = false := h s (Nat.le_refl _) (by omega)
      simp only [scanPorts, hs, Bool.false_eq_true, if_false]
      exact ih (s + 1) (fun q h1 h2 => h q (by omega) (by omega))

/-! ## Claims about the deploy pipeline -/

/-- C1: every deploy call that completes successfully passes its tracker
through validating, downloading, loading, creating_pipeline,
starting_server, completed in that order with phase percents exactly
10, 20, 60, 75, 85, 100, and the full sequence of percents written over
the run (download ticks included) is monotonically non-decreasing and
ends at 100. -/
theorem deploy_success_checkpoints (svc : Service) (m mt : String)
    (nm : Option String) (env : DeployEnv) (now : Nat) (port : Nat)
    (hm : ¬ m = "") (hd : env.downloadError = none)
    (hp : env.portResult = Except.ok port) :
    let r := deploy_model svc ⟨some m, mt, nm⟩ env now
    r.outcome = Except.ok
      { deployment_id := deployId ⟨some m, mt, nm⟩ now, model_id := m,
        model_type := mt, port := port, status := "running" } ∧
    phaseUpdates r.events =
      [(some "validating", some 10), (some "downloading", some 20),
       (some "loading", some 60), (some "creating_pipeline", some 75),
       (some "starting_server", some 85), (some "completed", some 100)] ∧
    List.Chain' (fun a b => a ≤ b) (percentsOf r.events) ∧
    (percentsOf r.events).getLast? = some (100 : Int) := by
  have hm2 : (m == "") = false := by simp [hm]
  simp [deploy_model, optStrFalsy, hm2, hd, hp, phaseUpdates, percentsOf,
    validationEvent, downloadStartEvent, downloadTickEvents, downloadTickPercents,
    downloadDoneEvent, loadingEvent, pipelineEvent, serverEvent, completedEvent,
    phaseEvent, progressEvent, deployId]

/-- Witness for C1 at a concrete successful run. -/
theorem deploy_success_checkpoints_witness :
    (deploy_model ⟨[], []⟩ ⟨some "demo/model", "nlp", some "d1"⟩
        ⟨none, Except.ok 8100⟩ 0).outcome =
      Except.ok ⟨"d1", "demo/model", "nlp", 8100, "running"⟩ ∧
    phaseUpdates (deploy_model ⟨[], []⟩ ⟨some "demo/model", "nlp", some "d1"⟩
        ⟨none, Except.ok 8100⟩ 0).events =
      [(some "validating", some 10), (some "downloading", some 20),
       (some "loading", some 60), (some "creating_pipeline", some 75),
       (some "starting_server", some 85), (some "completed", some 100)] ∧
    List.Chain' (fun a b => a ≤ b)
      (percentsOf (deploy_model ⟨[], []⟩ ⟨some "demo/model", "nlp", some "d1"⟩
        ⟨none, Except.ok 8100⟩ 0).events) ∧
    (percentsOf (deploy_model ⟨[], []⟩ ⟨some "demo/model", "nlp", some "d1"⟩
        ⟨none, Except.ok 8100⟩ 0).events).getLast? = some (100 : Int) :=
  deploy_success_checkpoints ⟨[], []⟩ "demo/model" "nlp" (some "d1")
    ⟨none, Except.ok 8100⟩ 0 8100 (by decide) rfl rfl

/-- C2: whenever a phase of deploy_model raises, the pipeline appends
the error message to the tracker error list, issues a failed update
that leaves the percent at its last value (the last event re-passes the
current percent, which equals the last percent written before the
failure), and re-raises the same error to the caller. -/
theorem deploy_failure_recorded (svc : Service) (cfg : DeployConfig)
    (env : DeployEnv) (now : Nat) (err : String)
    (h : (deploy_model svc cfg env now).outcome = Except.error err) :
    let r := deploy_model svc cfg env now
    r.final.status = "failed" ∧
    r.final.errors = [err] ∧
    r.final.current_step = "Error" ∧
    r.events.getLast? = some
      { status := some "failed", progress := some r.final.progress,
        message := some ("Deployment failed: " ++ err),
        current_step := some "Error" } ∧
    (percentsOf r.events.dropLast).getLast? = some r.final.progress := by
  rcases cfg with ⟨mid, mt, nm⟩
  rcases env with ⟨dl, pr⟩
  by_cases h1 : optStrFalsy mid = true
  · simp only [deploy_model, h1, if_true, failWith] at h ⊢
    simp only [Except.error.injEq] at h
    subst h
    simp [applyEvents, applyEvent, DeploymentProgress.update,
      DeploymentProgress.init, validationEvent, phaseEvent, percentsOf]
  · have h1f : optStrFalsy mid = false := by simpa using h1
    rcases dl with _ | derr
    · rcases pr with perr | port
      · simp only [deploy_model, h1f, Bool.false_eq_true, if_false, failWith] at h ⊢
        simp only [Except.error.injEq] at h
        subst h
        simp [applyEvents, applyEvent, DeploymentProgress.update,
          DeploymentProgress.init, validationEvent, downloadStartEvent,
          downloadTickEvents, downloadTickPercents, downloadDoneEvent,
          loadingEvent, pipelineEvent, serverEvent, phaseEvent,
          progressEvent, percentsOf]
      · simp only [deploy_model, h1f, Bool.false_eq_true, if_false] at h
        simp at h
    · simp only [deploy_model, h1f, Bool.false_eq_true, if_false, failWith] at h ⊢
      simp only [Except.error.injEq] at h
      subst h
      simp [applyEvents, applyEvent, DeploymentProgress.update,
        DeploymentProgress.init, validationEvent, downloadStartEvent,
        downloadTickEvents, downloadTickPercents, phaseEvent,
        progressEvent, percentsOf]

/-- Witness for C2 at a concrete failing run (missing model_id). -/
theorem deploy_failure_recorded_witness :
    (deploy_model ⟨[], []⟩ ⟨none, "nlp", some "dw2"⟩
        ⟨none, Except.ok 8100⟩ 0).final.status = "failed" ∧
    (deploy_model ⟨[], []⟩ ⟨none, "nlp", some "dw2"⟩
        ⟨none, Except.ok 8100⟩ 0).final.errors = ["model_id is required"] ∧
    (deploy_model ⟨[], []⟩ ⟨none, "nlp", some "dw2"⟩
        ⟨none, Except.ok 8100⟩ 0).final.current_step = "Error" ∧
    (deploy_model ⟨[], []⟩ ⟨none, "nlp", some "dw2"⟩
        ⟨none, Except.ok 8100⟩ 0).events.getLast? = some
      { status := some "failed",
        progress := some (deploy_model ⟨[], []⟩ ⟨none, "nlp", some "dw2"⟩
          ⟨none, Except.ok 8100⟩ 0).final.progress,
        message := some ("Deployment failed: " ++ "model_id is required"),
        current_step := some "Error" } ∧
    (percentsOf (deploy_model ⟨[], []⟩ ⟨none, "nlp", some "dw2"⟩
        ⟨none, Except.ok 8100⟩ 0).events.dropLast).getLast? =
      some (deploy_model ⟨[], []⟩ ⟨none, "nlp", some "dw2"⟩
        ⟨none, Except.ok 8100⟩ 0).final.progress :=
  deploy_failure_recorded ⟨[], []⟩ ⟨none, "nlp", some "dw2"⟩
    ⟨none, Except.ok 8100⟩ 0 "model_id is required" rfl

/-- C3 counterexample: on a deploy request with no model_id the pipeline
does raise the configuration error, but the tracker's current phase
name does not remain the validation phase: the failure handler
overwrites it with the Error marker. -/
theorem missing_model_counterexample :
    (deploy_model ⟨[], []⟩ ⟨none, "nlp", some "d3"⟩
        ⟨none, Except.ok 8100⟩ 0).outcome =
      Except.error "model_id is required" ∧
    (deploy_model ⟨[], []⟩ ⟨none, "nlp", some "d3"⟩
        ⟨none, Except.ok 8100⟩ 0).final.current_step = "Error" ∧
    ¬ (deploy_model ⟨[], []⟩ ⟨none, "nlp", some "d3"⟩
        ⟨none, Except.ok 8100⟩ 0).final.current_step =
      "Configuration validation" := by
  refine ⟨rfl, rfl, ?_⟩
  decide

/-- C3 amended: a deploy request whose model_id is missing (or empty,
which the guard treats the same way) fails immediately with the
configuration error; the only updates ever written are the validating
one and the failure one, so no later phase's update is applied and the
percent stays at 10; the tracker ends with status failed and with
current step set to the Error marker rather than remaining at the
validation phase name. -/
theorem missing_model_fails_in_validation (svc : Service)
    (cfg : DeployConfig) (env : DeployEnv) (now : Nat)
    (h : optStrFalsy cfg.model_id = true) :
    let r := deploy_model svc cfg env now
    r.outcome = Except.error "model_id is required" ∧
    r.events.map (fun e => e.status) = [some "validating", some "failed"] ∧
    r.final.status = "failed" ∧
    r.final.progress = 10 ∧
    r.final.current_step = "Error" ∧
    phaseUpdates r.events =
      [(some "validating", some 10), (some "failed", some 10)] := by
  simp [deploy_model, h, failWith, applyEvents, applyEvent,
    DeploymentProgress.update, DeploymentProgress.init, validationEvent,
    phaseEvent, phaseUpdates]

/-- Witness for the amended C3 at a concrete request. -/
theorem missing_model_fails_in_validation_witness :
    (deploy_model ⟨[], []⟩ ⟨none, "nlp", some "dw3"⟩
        ⟨none, Except.ok 8100⟩ 0).outcome =
      Except.error "model_id is required" ∧
    (deploy_model ⟨[], []⟩ ⟨none, "nlp", some "dw3"⟩
        ⟨none, Except.ok 8100⟩ 0).events.map (fun e => e.status) =
      [some "validating", some "failed"] ∧
    (deploy_model ⟨[], []⟩ ⟨none, "nlp", some "dw3"⟩
        ⟨none, Except.ok 8100⟩ 0).final.status = "failed" ∧
    (deploy_model ⟨[], []⟩ ⟨none, "nlp", some "dw3"⟩
        ⟨none, Except.ok 8100⟩ 0).final.progress = 10 ∧
    (deploy_model ⟨[], []⟩ ⟨none, "nlp", some "dw3"⟩
        ⟨none, Except.ok 8100⟩ 0).final.current_step = "Error" ∧
    phaseUpdates (deploy_model ⟨[], []⟩ ⟨none, "nlp", some "dw3"⟩
        ⟨none, Except.ok 8100⟩ 0).events =
      [(some "validating", some 10), (some "failed", some 10)] :=
  missing_model_fails_in_validation ⟨[], []⟩ ⟨none, "nlp", some "dw3"⟩
    ⟨none, Except.ok 8100⟩ 0 rfl

/-- C10: deploy_model installs a fresh tracker under the requested
deployment identifier unconditionally (overwriting any existing tracker
under that identifier), its behavior is entirely independent of the
existing registry content (so an earlier failed or successful run under
the same name needs no prior deletion and raises no error), on success
it overwrites the deployment record under that identifier, and when
deployment_name is absent the identifier is model_ followed by the unix
timestamp. -/
theorem redeploy_overwrites (svc : Service) (cfg : DeployConfig)
    (env : DeployEnv) (now : Nat) :
    let r := deploy_model svc cfg env now
    let r0 := deploy_model ⟨[], []⟩ cfg env now
    getKey r.svc.deployments (deployId cfg now) = some r.final ∧
    r.events = r0.events ∧
    r.final = r0.final ∧
    r.outcome = r0.outcome ∧
    (r.outcome.toOption.isSome = true →
        getKey r.svc.deployed_models (deployId cfg now) = r.outcome.toOption) ∧
    (cfg.deployment_name = none →
        deployId cfg now = "model_" ++ toString now) := by
  have final2 : ∀ hy : cfg.deployment_name = none,
      deployId cfg now = "model_" ++ toString now := by
    intro hy; simp [deployId, hy]
  rcases env with ⟨dl, pr⟩
  by_cases h1 : optStrFalsy cfg.model_id = true
  · simp [deploy_model, h1, failWith, getKey_setKey_self, deployId]
    exact ⟨fun h => by simp [Except.toOption] at h, final2⟩
  · have h1f : optStrFalsy cfg.model_id = false := by simpa using h1
    rcases dl with _ | derr
    · rcases pr with perr | port
      · simp [deploy_model, h1f, failWith, getKey_setKey_self, deployId]
        exact ⟨fun h => by simp [Except.toOption] at h, final2⟩
      · simp [deploy_model, h1f, failWith, getKey_setKey_self, deployId]
        exact ⟨fun _ => by simp [Except.toOption], final2⟩
    · simp [deploy_model, h1f, failWith, getKey_setKey_self, deployId]
      exact ⟨fun h => by simp [Except.toOption] at h, final2⟩

/-- Witness for C10: redeploying over an existing record named d1
overwrites it, and an absent deployment_name yields a generated id. -/
theorem redeploy_overwrites_witness :
    getKey (deploy_model ⟨[("d1", DeploymentProgress.init "d1")],
        [("d1", ⟨"d1", "old/model", "nlp", 8100, "running"⟩)]⟩
        ⟨some "demo/model", "nlp", some "d1"⟩ ⟨none, Except.ok 8101⟩ 7).svc.deployed_models
      "d1" =
      (deploy_model ⟨[("d1", DeploymentProgress.init "d1")],
        [("d1", ⟨"d1", "old/model", "nlp", 8100, "running"⟩)]⟩
        ⟨some "demo/model", "nlp", some "d1"⟩ ⟨none, Except.ok 8101⟩ 7).outcome.toOption ∧
    deployId ⟨some "demo/model", "nlp", none⟩ 7 = "model_" ++ toString 7 :=
  ⟨((redeploy_overwrites ⟨[("d1", DeploymentProgress.init "d1")],
        [("d1", ⟨"d1", "old/model", "nlp", 8100, "running"⟩)]⟩
        ⟨some "demo/model", "nlp", some "d1"⟩ ⟨none, Except.ok 8101⟩ 7).2.2.2.2).1 rfl,
   ((redeploy_overwrites ⟨[], []⟩
        ⟨some "demo/model", "nlp", none⟩ ⟨none, Except.ok 8101⟩ 7).2.2.2.2).2 rfl⟩

/-- C5 counterexample: supplying the empty string as the phase name is a
supplied phase name under the claim, yet the source guard
(if current_step:) uses Python truthiness and does not increment the
completed-phase counter for it. -/
theorem update_empty_step_counterexample :
    ((DeploymentProgress.init "d5").update none none none (some "")).completed_steps = 0 ∧
    ¬ ((DeploymentProgress.init "d5").update none none none (some "")).completed_steps =
      (DeploymentProgress.init "d5").completed_steps + 1 := by
  decide

/-- C5 amended: every omitted field of a tracker update leaves the
corresponding stored field unchanged; an update supplying only a
percent changes nothing but the percent; and the completed-phase
counter is incremented exactly when a non-empty phase name is supplied,
empty-string status, message or phase-name arguments being treated like
omitted ones by the truthiness guards. -/
theorem tracker_update_frame (p : DeploymentProgress) (st msg : Option String)
    (pvO : Option Int) (pv : Int) (s : String) (hs : ¬ s = "") :
    (p.update none pvO msg (some s)).status = p.status ∧
    (p.update st none msg (some s)).progress = p.progress ∧
    (p.update st pvO none (some s)).message = p.message ∧
    (p.update st pvO msg none).current_step = p.current_step ∧
    (p.update st pvO msg none).completed_steps = p.completed_steps ∧
    p.update none (some pv) none none = { p with progress := pv } ∧
    (p.update st pvO msg (some s)).completed_steps = p.completed_steps + 1 ∧
    (p.update st pvO msg (some s)).current_step = s ∧
    (p.update st pvO msg (some "")).completed_steps = p.completed_steps ∧
    (p.update (some "") pvO msg (some s)).status = p.status ∧
    (p.update st pvO (some "") (some s)).message = p.message := by
  have hs2 : (s == "") = false := by simp [hs]
  simp [DeploymentProgress.update, hs2]

/-- Witness for the amended C5 at concrete update calls. -/
theorem tracker_update_frame_witness :
    ((DeploymentProgress.init "dw5").update none (some 30) (some "hi") (some "Model download")).status =
      (DeploymentProgress.init "dw5").status ∧
    ((DeploymentProgress.init "dw5").update (some "downloading") none (some "hi")
        (some "Model download")).progress = (DeploymentProgress.init "dw5").progress ∧
    ((DeploymentProgress.init "dw5").update (some "downloading") (some 30) none
        (some "Model download")).message = (DeploymentProgress.init "dw5").message ∧
    ((DeploymentProgress.init "dw5").update (some "downloading") (some 30) (some "hi")
        none).current_step = (DeploymentProgress.init "dw5").current_step ∧
    ((DeploymentProgress.init "dw5").update (some "downloading") (some 30) (some "hi")
        none).completed_steps = (DeploymentProgress.init "dw5").completed_steps ∧
    (DeploymentProgress.init "dw5").update none (some 30) none none =
      { DeploymentProgress.init "dw5" with progress := 30 } ∧
    ((DeploymentProgress.init "dw5").update (some "downloading") (some 30) (some "hi")
        (some "Model download")).completed_steps =
      (DeploymentProgress.init "dw5").completed_steps + 1 ∧
    ((DeploymentProgress.init "dw5").update (some "downloading") (some 30) (some "hi")
        (some "Model download")).current_step = "Model download" ∧
    ((DeploymentProgress.init "dw5").update (some "downloading") (some 30) (some "hi")
        (some "")).completed_steps = (DeploymentProgress.init "dw5").completed_steps ∧
    ((DeploymentProgress.init "dw5").update (some "") (some 30) (some "hi")
        (some "Model download")).status = (DeploymentProgress.init "dw5").status ∧
    ((DeploymentProgress.init "dw5").update (some "downloading") (some 30) (some "")
        (some "Model download")).message = (DeploymentProgress.init "dw5").message :=
  tracker_update_frame (DeploymentProgress.init "dw5") (some "downloading") (some "hi")
    (some 30) 30 "Model download" (by decide)

/-- C6: both port allocators scan their range in strictly ascending
order from its start, return the first port their probe reports free,
never return a port outside the range, and raise the no-port error when
every port of the range is busy. -/
theorem port_scan_first_free (free : Nat → Bool) (s e n : Nat) :
    (∀ port, get_available_port free s e = Except.ok port →
       s ≤ port ∧ port < e ∧ free port = true ∧
         ∀ q, s ≤ q → q < port → free q = false) ∧
    ((∀ q, s ≤ q → q < e → free q = false) →
       get_available_port free s e =
         Except.error "No available ports for model serving") ∧
    (∀ port, find_available_port free s n = Except.ok port →
       s ≤ port ∧ port < s + n ∧ free port = true ∧
         ∀ q, s ≤ q → q < port → free q = false) ∧
    ((∀ q, s ≤ q → q < s + n → free q = false) →
       find_available_port free s n = Except.error "No available ports found") := by
  refine ⟨fun port h => ?_, fun h => ?_, fun port h => ?_, fun h => ?_⟩
  · obtain ⟨h1, h2, h3, h4⟩ := scanPorts_ok free _ _ _ _ h
    exact ⟨h1, by omega, h3, h4⟩
  · exact scanPorts_exhausted free _ _ _ fun q h1 h2 => h q h1 (by omega)
  · exact scanPorts_ok free _ _ _ _ h
  · exact scanPorts_exhausted free _ _ _ h

/-- Witness for C6: with 8100 busy and 8101 free, both allocators pick
8101; with everything busy both raise their no-port error. -/
theorem port_scan_first_free_witness :
    get_available_port (fun _ => false) 8100 8102 =
      Except.error "No available ports for model serving" ∧
    find_available_port (fun _ => false) 8100 2 =
      Except.error "No available ports found" ∧
    (8100 ≤ 8101 ∧ 8101 < 8102 ∧ (fun p => p == 8101) 8101 = true) :=
  ⟨(port_scan_first_free (fun _ => false) 8100 8102 2).2.1 (fun q _ _ => rfl),
   (port_scan_first_free (fun _ => false) 8100 8102 2).2.2.2 (fun q _ _ => rfl),
   ((port_scan_first_free (fun p => p == 8101) 8100 8102 2).1 8101 (by decide)).1,
   ((port_scan_first_free (fun p => p == 8101) 8100 8102 2).1 8101 (by decide)).2.1,
   ((port_scan_first_free (fun p => p == 8101) 8100 8102 2).1 8101 (by decide)).2.2.1⟩

theorem getKey_mem_keys {α : Type} (m : List (String × α)) (k : String) (v : α)
    (h : getKey m k = some v) : k ∈ m.map Prod.fst := by
  induction m with
  | nil => simp [getKey] at h
  | cons hd tl ih =>
      obtain ⟨k1, v1⟩ := hd
      by_cases hk : k1 = k
      · simp [hk]
      · simp only [getKey, if_neg hk] at h
        simp [ih h]

theorem fold_disconnect (id : String) :
    ∀ (d : List Nat) (mgr : ConnectionManager) (l : List Nat),
      getKey mgr.active_connections id = some l →
      (mgr.active_connections.map Prod.fst).Nodup →
      d.Nodup → (∀ x ∈ d, x ∈ l) → l.Nodup → l ≠ [] →
      getKey ((d.foldl (fun m c => m.disconnect c id) mgr)).active_connections id =
        (if l.diff d = [] then none else some (l.diff d)) := by
  intro d
  induction d with
  | nil =>
      intro mgr l h hk hd hsub hl hne
      simp [h, hne]
  | cons c d ih =>
      intro mgr l h hk hd hsub hl hne
      simp only [List.foldl_cons]
      have hc : c ∈ l := hsub c (List.mem_cons_self c d)
      have hsub2 : ∀ x ∈ d, x ∈ l.erase c := by
        intro x hx
        have hxl : x ∈ l := hsub x (List.mem_cons_of_mem c hx)
        have hxc : x ≠ c := by
          intro hxc; subst hxc
          exact (List.nodup_cons.mp hd).1 hx
        exact (List.mem_erase_of_ne hxc).mpr hxl
      by_cases hemp : (l.erase c).isEmpty
      · have hl1 : l.erase c = [] := by simpa [List.isEmpty_iff] using hemp
        have hdnil : d = [] := by
          apply List.eq_nil_iff_forall_not_mem.mpr
          intro x hx
          have := hsub2 x hx
          rw [hl1] at this
          exact absurd this (List.not_mem_nil x)
        subst hdnil
        have hstep : mgr.disconnect c id = ⟨delKey mgr.active_connections id⟩ := by
          simp [ConnectionManager.disconnect, h, hemp]
        simp only [List.foldl_nil, hstep]
        rw [getKey_delKey_self _ _ hk]
        simp [List.diff_cons, hl1]
      · have hstep : mgr.disconnect c id =
            ⟨setKey mgr.active_connections id (l.erase c)⟩ := by
          simp [ConnectionManager.disconnect, h, hemp]
        rw [hstep]
        have hkey : id ∈ mgr.active_connections.map Prod.fst :=
          getKey_mem_keys _ _ _ h
        have hres := ih ⟨setKey mgr.active_connections id (l.erase c)⟩ (l.erase c)
          (getKey_setKey_self _ _ _)
          (by rw [map_fst_setKey _ _ _ hkey]; exact hk)
          (List.nodup_cons.mp hd).2 hsub2 (hl.erase c)
          (by simpa [List.isEmpty_iff] using hemp)
        rw [hres, List.diff_cons]

/-- C4: a broadcast to an identifier with a non-empty subscriber list
attempts a send to every channel subscribed at the start of the
broadcast (so one channel's failure never suppresses another channel's
send), collects exactly the channels whose send raised, and only after
the iteration removes them, leaving precisely the channels whose send
succeeded subscribed (the identifier itself is dropped when none
remain). -/
theorem broadcast_fanout (mgr : ConnectionManager) (id : String)
    (sendOk : Nat → Bool) (conns : List Nat)
    (h : getKey mgr.active_connections id = some conns)
    (hne : conns ≠ []) (hnd : conns.Nodup)
    (hkeys : (mgr.active_connections.map Prod.fst).Nodup) :
    let r := mgr.send_progress id sendOk
    r.attempted = conns ∧
    r.dead = conns.filter (fun c => ! sendOk c) ∧
    getKey r.mgr.active_connections id =
      (if conns.filter sendOk = [] then none
       else some (conns.filter sendOk)) := by
  have hdiff : conns.diff (conns.filter fun c => ! sendOk c) =
      conns.filter sendOk := by
    rw [hnd.diff_eq_filter]
    apply List.filter_congr
    intro x hx
    by_cases hsx : sendOk x <;> simp [List.mem_filter, hx, hsx]
  have hfold := fold_disconnect id (conns.filter fun c => ! sendOk c) mgr conns
    h hkeys (hnd.filter _) (fun x hx => (List.mem_filter.mp hx).1) hnd hne
  rw [hdiff] at hfold
  simp only [ConnectionManager.send_progress, h]
  exact ⟨trivial, trivial, hfold⟩

/-- Witness for C4: three subscribers, the middle send raises, the
other two are still attempted and only the failing one is removed. -/
theorem broadcast_fanout_witness :
    (ConnectionManager.send_progress ⟨[("d4", [1, 2, 3])]⟩ "d4"
        (fun c => c != 2)).attempted = [1, 2, 3] ∧
    (ConnectionManager.send_progress ⟨[("d4", [1, 2, 3])]⟩ "d4"
        (fun c => c != 2)).dead = [2] ∧
    getKey (ConnectionManager.send_progress ⟨[("d4", [1, 2, 3])]⟩ "d4"
        (fun c => c != 2)).mgr.active_connections "d4" = some [1, 3] :=
  broadcast_fanout ⟨[("d4", [1, 2, 3])]⟩ "d4" (fun c => c != 2) [1, 2, 3]
    rfl (by decide) (by decide) (by decide)

/-- C7 counterexample: in the process-supervising app, after the DELETE
route (stop_deployment) on an existing deployment, a GET of the same
identifier still returns 200 with status stopped — not 404 as the
claim requires — because the DELETE route never removes the record. -/
theorem get_after_delete_counterexample :
    get_deployment
        (stop_deployment [("d7", ⟨"d7", "m", 8001, 42, "running"⟩)]
          (fun p => p == 42) "d7").reg
        (stop_deployment [("d7", ⟨"d7", "m", 8001, 42, "running"⟩)]
          (fun p => p == 42) "d7").alive "d7" =
      Except.ok ⟨"d7", "m", 8001, 42, "stopped"⟩ ∧
    ¬ get_deployment
        (stop_deployment [("d7", ⟨"d7", "m", 8001, 42, "running"⟩)]
          (fun p => p == 42) "d7").reg
        (stop_deployment [("d7", ⟨"d7", "m", 8001, 42, "running"⟩)]
          (fun p => p == 42) "d7").alive "d7" = Except.error 404 := by
  constructor
  · rfl
  · decide

/-- C7 amended: a GET of a never-created identifier returns 404, and
while the record exists a GET returns 200 with status running iff the
liveness probe reports the process alive; but the DELETE route of the
process-supervising app only stops the process and marks the record
stopped, so a subsequent GET returns 200 with status stopped rather
than 404.  Only the backend app's delete removes the record, making a
subsequent GET return 404 — and that app's GET always reports status
running, with no liveness probe at all. -/
theorem get_deployment_lifecycle (reg : List (String × DepRecordA))
    (alive : Nat → Bool) (id : String) (d : DepRecordA)
    (svc : Service) (info : DeploymentInfo)
    (hk : (svc.deployed_models.map Prod.fst).Nodup) :
    (getKey reg id = none → get_deployment reg alive id = Except.error 404) ∧
    (getKey reg id = some d →
       get_deployment reg alive id = Except.ok
         { deployment_id := d.deployment_id, model_name := d.model_name,
           port := d.port, pid := d.pid,
           status := if alive d.pid then "running" else "stopped" }) ∧
    (getKey reg id = some d →
       getKey (stop_deployment reg alive id).reg id =
         some { d with status := "stopped" } ∧
       get_deployment (stop_deployment reg alive id).reg
           (stop_deployment reg alive id).alive id = Except.ok
         { deployment_id := d.deployment_id, model_name := d.model_name,
           port := d.port, pid := d.pid, status := "stopped" }) ∧
    (getKey svc.deployed_models id = none →
       get_deployment_backend svc id = Except.error 404) ∧
    (getKey svc.deployed_models id = some info →
       get_deployment_backend svc id =
         Except.ok { info with status := "running" }) ∧
    (getKey svc.deployed_models id = some info →
       get_deployment_backend (delete_deployment svc id).1 id =
         Except.error 404) := by
  refine ⟨fun h => ?_, fun h => ?_, fun h => ?_, fun h => ?_, fun h => ?_,
    fun h => ?_⟩
  · simp [get_deployment, h]
  · simp [get_deployment, h]
  · have h2 : getKey (setKey reg id { d with status := "stopped" }) id =
        some { d with status := "stopped" } := getKey_setKey_self _ _ _
    simp [stop_deployment, h, get_deployment, h2]
  · simp [get_deployment_backend, h]
  · simp [get_deployment_backend, h]
  · simp [delete_deployment, h, get_deployment_backend,
      getKey_delKey_self _ _ hk]

/-- Witness for the amended C7 at concrete registries. -/
theorem get_deployment_lifecycle_witness :
    get_deployment [] (fun _ => true) "none7" = Except.error 404 ∧
    get_deployment [("d7", ⟨"d7", "m", 8001, 42, "running"⟩)]
        (fun p => p == 42) "d7" =
      Except.ok ⟨"d7", "m", 8001, 42, "running"⟩ ∧
    getKey (stop_deployment [("d7", ⟨"d7", "m", 8001, 42, "running"⟩)]
        (fun p => p == 42) "d7").reg "d7" =
      some ⟨"d7", "m", 8001, 42, "stopped"⟩ ∧
    get_deployment_backend ⟨[], []⟩ "none7" = Except.error 404 ∧
    get_deployment_backend ⟨[], [("d7b", ⟨"d7b", "mm", "nlp", 8102, "running"⟩)]⟩
        "d7b" = Except.ok ⟨"d7b", "mm", "nlp", 8102, "running"⟩ ∧
    get_deployment_backend
        (delete_deployment ⟨[], [("d7b", ⟨"d7b", "mm", "nlp", 8102, "running"⟩)]⟩
          "d7b").1 "d7b" = Except.error 404 :=
  ⟨(get_deployment_lifecycle [] (fun _ => true) "none7"
      ⟨"d7", "m", 8001, 42, "running"⟩ ⟨[], []⟩
      ⟨"d7b", "mm", "nlp", 8102, "running"⟩ (by decide)).1 rfl,
   (get_deployment_lifecycle [("d7", ⟨"d7", "m", 8001, 42, "running"⟩)]
      (fun p => p == 42) "d7" ⟨"d7", "m", 8001, 42, "running"⟩ ⟨[], []⟩
      ⟨"d7b", "mm", "nlp", 8102, "running"⟩ (by decide)).2.1 rfl,
   ((get_deployment_lifecycle [("d7", ⟨"d7", "m", 8001, 42, "running"⟩)]
      (fun p => p == 42) "d7" ⟨"d7", "m", 8001, 42, "running"⟩ ⟨[], []⟩
      ⟨"d7b", "mm", "nlp", 8102, "running"⟩ (by decide)).2.2.1 rfl).1,
   (get_deployment_lifecycle [] (fun _ => true) "none7"
      ⟨"d7", "m", 8001, 42, "running"⟩ ⟨[], []⟩
      ⟨"d7b", "mm", "nlp", 8102, "running"⟩ (by decide)).2.2.2.1 rfl,
   (get_deployment_lifecycle [] (fun _ => true) "d7b"
      ⟨"d7", "m", 8001, 42, "running"⟩
      ⟨[], [("d7b", ⟨"d7b", "mm", "nlp", 8102, "running"⟩)]⟩
      ⟨"d7b", "mm", "nlp", 8102, "running"⟩ (by decide)).2.2.2.2.1 rfl,
   (get_deployment_lifecycle [] (fun _ => true) "d7b"
      ⟨"d7", "m", 8001, 42, "running"⟩
      ⟨[], [("d7b", ⟨"d7b", "mm", "nlp", 8102, "running"⟩)]⟩
      ⟨"d7b", "mm", "nlp", 8102, "running"⟩ (by decide)).2.2.2.2.2 rfl⟩

/-- C9: stopping a deployment whose process was already stopped by an
earlier stop call raises no error, returns the same success body as the
first call, sends no signal (terminate is a no-op on an exited
process), and liveness probes report not-alive from the first stop on.
The record is still registered with status stopped. -/
theorem stop_idempotent (reg : List (String × DepRecordA)) (alive : Nat → Bool)
    (id : String) (d : DepRecordA) (h : getKey reg id = some d) :
    let r1 := stop_deployment reg alive id
    let r2 := stop_deployment r1.reg r1.alive id
    r1.response = Except.ok "Deployment stopped successfully" ∧
    r1.alive d.pid = false ∧
    r2.response = r1.response ∧
    r2.signals = [] ∧
    r2.alive d.pid = false ∧
    getKey r2.reg id = some { d with status := "stopped" } := by
  have h2 : getKey (setKey reg id { d with status := "stopped" }) id =
      some { d with status := "stopped" } := getKey_setKey_self _ _ _
  simp [stop_deployment, h, h2, getKey_setKey_self]

/-- Witness for C9 at a concrete deployment with a live process. -/
theorem stop_idempotent_witness :
    (stop_deployment [("d9", ⟨"d9", "m", 8001, 42, "running"⟩)]
        (fun p => p == 42) "d9").response =
      Except.ok "Deployment stopped successfully" ∧
    (stop_deployment [("d9", ⟨"d9", "m", 8001, 42, "running"⟩)]
        (fun p => p == 42) "d9").alive 42 = false ∧
    (stop_deployment
        (stop_deployment [("d9", ⟨"d9", "m", 8001, 42, "running"⟩)]
          (fun p => p == 42) "d9").reg
        (stop_deployment [("d9", ⟨"d9", "m", 8001, 42, "running"⟩)]
          (fun p => p == 42) "d9").alive "d9").response =
      (stop_deployment [("d9", ⟨"d9", "m", 8001, 42, "running"⟩)]
        (fun p => p == 42) "d9").response ∧
    (stop_deployment
        (stop_deployment [("d9", ⟨"d9", "m", 8001, 42, "running"⟩)]
          (fun p => p == 42) "d9").reg
        (stop_deployment [("d9", ⟨"d9", "m", 8001, 42, "running"⟩)]
          (fun p => p == 42) "d9").alive "d9").signals = [] ∧
    (stop_deployment
        (stop_deployment [("d9", ⟨"d9", "m", 8001, 42, "running"⟩)]
          (fun p => p == 42) "d9").reg
        (stop_deployment [("d9", ⟨"d9", "m", 8001, 42, "running"⟩)]
          (fun p => p == 42) "d9").alive "d9").alive 42 = false ∧
    getKey (stop_deployment
        (stop_deployment [("d9", ⟨"d9", "m", 8001, 42, "running"⟩)]
          (fun p => p == 42) "d9").reg
        (stop_deployment [("d9", ⟨"d9", "m", 8001, 42, "running"⟩)]
          (fun p => p == 42) "d9").alive "d9").reg "d9" =
      some ⟨"d9", "m", 8001, 42, "stopped"⟩ :=
  stop_idempotent [("d9", ⟨"d9", "m", 8001, 42, "running"⟩)]
    (fun p => p == 42) "d9" ⟨"d9", "m", 8001, 42, "running"⟩ rfl

/-- C8 counterexample: connecting for an identifier with no tracker
sends nothing at all before the loop, not the status-unknown message
the claim requires. -/
theorem ws_connect_unknown_counterexample :
    ws_connect_messages ⟨[], []⟩ "nope" = [] ∧
    ¬ ws_connect_messages ⟨[], []⟩ "nope" = [WsMessage.statusUnknown] := by
  decide

/-- C8 amended: on connect the endpoint immediately sends the current
progress snapshot when a tracker exists for the identifier, and sends
nothing before the ping/heartbeat loop when none exists; the
status-unknown message is sent only as the reply to a ping when no
tracker exists. -/
theorem ws_connect_initial_send (svc : Service) (id : String)
    (p : DeploymentProgress) :
    (get_deployment_status svc id = some p →
        ws_connect_messages svc id = [WsMessage.snapshot p]) ∧
    (get_deployment_status svc id = none →
        ws_connect_messages svc id = [] ∧
        ws_ping_reply svc id = WsMessage.statusUnknown) := by
  constructor <;> intro h <;> simp [ws_connect_messages, ws_ping_reply, h]

/-- Witness for the amended C8 at concrete states. -/
theorem ws_connect_initial_send_witness :
    ws_connect_messages ⟨[("d8", DeploymentProgress.init "d8")], []⟩ "d8" =
      [WsMessage.snapshot (DeploymentProgress.init "d8")] ∧
    ws_connect_messages ⟨[], []⟩ "d8x" = [] ∧
    ws_ping_reply ⟨[], []⟩ "d8x" = WsMessage.statusUnknown :=
  ⟨(ws_connect_initial_send ⟨[("d8", DeploymentProgress.init "d8")], []⟩ "d8"
      (DeploymentProgress.init "d8")).1 rfl,
   ((ws_connect_initial_send ⟨[], []⟩ "d8x" (DeploymentProgress.init "d8")).2 rfl).1,
   ((ws_connect_initial_send ⟨[], []⟩ "d8x" (DeploymentProgress.init "d8")).2 rfl).2⟩


end ModelDeploy
